import Mathlib

/-!
A shallow embedding of the claim-verification pipeline of
`src/backend/verification_service.py` (class `VerificationService`), together
with proofs of the behavioural properties stated in the repository's
specification.

Modelling conventions:
* Every external capability (the hosted LLM used for query generation,
  evidence search and verdict synthesis; the embedding-based similarity
  scorer; the JSON decoding performed by the `json` library on the
  capability's free-text replies) is a parameter of the pipeline, collected
  in the `Env` structure.  An `Env` fixes one behaviour of every external
  call, so theorems quantified over `Env` cover every behaviour of the
  collaborators.
* Python `float` values are modelled by `Rat`.  All arithmetic the pipeline
  performs on its own (the lexical-overlap fallback score, the fixed fallback
  confidences) is exact dyadic arithmetic, so `Rat` is a faithful model of
  the IEEE computation on the paths the specification talks about.
* Python dictionaries produced by parsing evidence JSON are modelled by
  `RawEvidence` records with optional fields (a missing key is `none`,
  matching `dict.get` semantics); the keys the service adds afterwards
  (`credibility_score`, `similarity_score`) appear as the extra fields of
  `SearchedEvidence` and `Evidence`.
* Exceptions are modelled explicitly: an external call either raises
  (carrying the exception text) or returns a response string.  A `try`
  block becomes a `match` on that outcome.
-/

namespace SatyaVerify

/-- Model of Python `str.split()` (no separator): split a character list into
maximal runs of non-whitespace characters, discarding all whitespace.  The
accumulator holds the current word reversed. -/
def pyWordsAux (acc : List Char) : List Char → List (List Char)
  | [] => if acc = [] then [] else [acc.reverse]
  | c :: cs =>
    if c.isWhitespace then
      if acc = [] then pyWordsAux [] cs
      else acc.reverse :: pyWordsAux [] cs
    else pyWordsAux (c :: acc) cs

/-- Python `s.split()`: the whitespace-delimited tokens of `s`. -/
def pyWords (s : String) : List (List Char) :=
  pyWordsAux [] s.data

/-- Model of Python `str.lower()`: character-wise lowercasing.  `Char.toLower`
lowercases exactly the ASCII range `A`-`Z`, which matches Python on the ASCII
fragment; lowercasing never touches whitespace, which is nothing the proofs
below assume without proof (see `toLower_isWhitespace`). -/
def pyLower (s : String) : String :=
  ⟨s.data.map Char.toLower⟩

/-- Python `needle in hay` on strings: substring containment. -/
def pyIn (needle hay : String) : Bool :=
  decide (needle.data <:+: hay.data)

/-- The code-fence stripping applied to every capability response before JSON
decoding (lines 73-76, 136-139 and 313-316 of `verification_service.py`):
`response.strip()`, then, when the text starts with a backtick fence,
`re.sub` of the pattern removing an opening fence with optional `json` tag and
a closing fence. -/
def stripFence (s : String) : String :=
  let t := s.trim
  if t.startsWith "```" then
    let t1 :=
      if t.startsWith "```json\n" then t.drop 8
      else if t.startsWith "```\n" then t.drop 4
      else t
    if t1.endsWith "\n```" then t1.dropRight 4 else t1
  else t

/-- Outcome of one call to a hosted-LLM capability: the call either raises an
exception (carrying its text) or returns a response string.  A `None` reply
from the client behaves exactly like the empty string under the `if response:`
truthiness checks, so both are represented by `respond ""`. -/
inductive LlmOutcome where
  | raise (msg : String)
  | respond (response : String)
deriving DecidableEq

/-- One evidence dictionary as decoded from the Evidence Source capability's
JSON reply.  A field is `none` when the key is absent, matching the
`dict.get` accesses in the source. -/
structure RawEvidence where
  source_name : Option String
  source_url : Option String
  relevant_text : Option String
  stance : Option String
  confidence : Option Rat
deriving DecidableEq

/-- An evidence dictionary after `search_trusted_sources` has added its
`credibility_score` key (lines 143-152). -/
structure SearchedEvidence where
  raw : RawEvidence
  credibility_score : Nat
deriving DecidableEq

/-- An evidence dictionary after `verify_claim` has also added its
`similarity_score` key (lines 224-229). -/
structure Evidence where
  raw : RawEvidence
  credibility_score : Nat
  similarity_score : Rat
deriving DecidableEq

/-- The JSON object parsed out of the verdict synthesizer's reply: the three
keys `_determine_verdict` reads, each `none` when absent. -/
structure VerdictJson where
  verdict : Option String
  confidence : Option Rat
  explanation : Option String

/-- Outcome of JSON-decoding the verdict synthesizer's reply (lines 312-324).
`jsonError` is a `json.JSONDecodeError` (caught by the inner handler, line
326); `raised` covers any other exception thrown after a successful JSON
parse — e.g. `float()` on a non-numeric confidence, or attribute access on a
non-object parse result — which escapes the inner handler and is caught by
the outer one (line 337); `parsed` is a successful parse into the three keys
read by the code. -/
inductive VerdictParse where
  | jsonError
  | raised (msg : String)
  | parsed (v : VerdictJson)

/-- The mapping returned by `verify_claim` (lines 242-249 and 253-260): it
always carries exactly the keys `claim_id`, `verdict`, `confidence`,
`explanation`, `supporting_sources`, `contradicting_sources`. -/
structure VerdictResult where
  claim_id : String
  verdict : String
  confidence : Rat
  explanation : String
  supporting_sources : List Evidence
  contradicting_sources : List Evidence

/-- One fixed behaviour of all external collaborators of the pipeline.
`queryGen` is the reasoning call of `generate_search_queries` (as a function
of the claim), `queryDecode` the `json.loads` of its reply restricted to the
shape the code can consume (`none` covers both a `JSONDecodeError` and a
parse result that is not a list of strings — the latter raises on the
subsequent subscript or `len` and is caught by the same enclosing handler
with the identical fallback).  `search`/`searchDecode` play the same roles in
`search_trusted_sources` (`none` likewise covers a decode error and a parse
result that is not a list of dictionaries).  `scoreSim` is the whole
embedding-plus-cosine computation of `calculate_semantic_similarity`.
`verdictCall`/`verdictParse` belong to `_determine_verdict`.  `unexpected`
models an exception raised inside `verify_claim`'s `try` block by anything
that escapes all inner guards (every inner stage is totally guarded, so this
covers runtime-level failures such as cancellation of the pacing sleep or
memory pressure); it is caught by the outermost handler, lines 251-260. -/
structure Env where
  queryGen : String → LlmOutcome
  queryDecode : String → Option (List String)
  search : String → LlmOutcome
  searchDecode : String → Option (List RawEvidence)
  scoreSim : String → String → Except String Rat
  verdictCall : String → List Evidence → List Evidence → LlmOutcome
  verdictParse : String → VerdictParse
  unexpected : Option String

/-- The static trusted-source table (lines 20-46): name, site URL,
credibility and search pattern, in insertion order. -/
structure TrustedSource where
  url : String
  credibility : Nat
  search_pattern : String

/-- `self.trusted_sources`, in the dictionary's insertion order. -/
def trusted_sources : List (String × TrustedSource) :=
  [("PIB Fact Check", ⟨"https://factcheck.pib.gov.in", 95, "site:factcheck.pib.gov.in"⟩),
   ("Alt News", ⟨"https://www.altnews.in", 90, "site:altnews.in"⟩),
   ("BoomLive", ⟨"https://www.boomlive.in/fact-check", 90, "site:boomlive.in"⟩),
   ("The Hindu", ⟨"https://www.thehindu.com", 85, "site:thehindu.com"⟩),
   ("PTI", ⟨"https://www.ptinews.com", 88, "site:ptinews.com"⟩)]

/-- The credibility assignment of `search_trusted_sources` (lines 143-152):
the first trusted source whose lowercased name is a substring of the
lowercased `source_name` gives its credibility; otherwise the default 70. -/
def assignCredibility (source_name : String) : Nat :=
  match trusted_sources.find? (fun p => pyIn (pyLower p.1) (pyLower source_name)) with
  | some p => p.2.credibility
  | none => 70

/-- `generate_search_queries` (lines 48-89): call the reasoning capability;
on a truthy response, strip a code fence and JSON-decode; a successful decode
is truncated to the first three queries (`queries[:3]`); every failure path
(exception, falsy response, decode failure) returns `[claim]`. -/
def generate_search_queries (env : Env) (claim : String) : List String :=
  match env.queryGen claim with
  | .raise _ => [claim]
  | .respond response =>
    if response = "" then [claim]
    else
      match env.queryDecode (stripFence response) with
      | some queries => queries.take 3
      | none => [claim]

/-- `search_trusted_sources` (lines 91-165): call the Evidence Source
capability; on a truthy response, strip a code fence and JSON-decode into a
list of evidence dictionaries, then annotate each with its credibility
score; every failure path returns the empty list. -/
def search_trusted_sources (env : Env) (query : String) : List SearchedEvidence :=
  match env.search query with
  | .raise _ => []
  | .respond response =>
    if response = "" then []
    else
      match env.searchDecode (stripFence response) with
      | some results =>
          results.map (fun r => ⟨r, assignCredibility (r.source_name.getD "")⟩)
      | none => []

/-- The number of distinct whitespace-delimited tokens shared by the two
lowercased texts: `len(set(text1.lower().split()) & set(text2.lower().split()))`
(line 203). -/
def sharedCount (t1 t2 : String) : Nat :=
  (((pyWords (pyLower t1)).dedup).filter
    (fun w => decide (w ∈ pyWords (pyLower t2)))).length

/-- The lexical-overlap fallback of `calculate_semantic_similarity`
(lines 203-204): shared distinct token count over
`max(len(text1.split()), len(text2.split()), 1)`, scaled by `0.5`. -/
def fallbackSimilarity (t1 t2 : String) : Rat :=
  (sharedCount t1 t2 : Rat)
    / ((max (max (pyWords t1).length (pyWords t2).length) 1 : Nat) : Rat) * (1 / 2)

/-- `calculate_semantic_similarity` (lines 167-204): the embedding-based
score when the scorer succeeds, the lexical-overlap fallback when it raises. -/
def calculate_semantic_similarity (env : Env) (text1 text2 : String) : Rat :=
  match env.scoreSim text1 text2 with
  | .ok s => s
  | .error _ => fallbackSimilarity text1 text2

/-- The deterministic fallback rule of `_determine_verdict` (lines 329-335). -/
def fallbackVerdict (supporting contradicting : List Evidence) :
    String × Rat × String :=
  if contradicting.length > supporting.length then
    ("FALSE", 60, "Multiple sources contradict this claim.")
  else if supporting.length > contradicting.length then
    ("TRUE", 60, "Multiple sources support this claim.")
  else
    ("UNVERIFIED", 30, "Insufficient evidence to verify this claim.")

/-- `_determine_verdict` (lines 262-339).  A raising reasoning call, or any
exception after a successful JSON parse, reaches the outer handler (line
337); a falsy response or a `JSONDecodeError` reaches the deterministic
fallback rule; a successful parse is returned with the `dict.get` defaults
`UNVERIFIED`, `50` and `"Unable to determine verdict"`. -/
def determine_verdict (env : Env) (claim : String)
    (supporting contradicting : List Evidence) : String × Rat × String :=
  match env.verdictCall claim supporting contradicting with
  | .raise msg => ("UNVERIFIED", 0, "Error during verification: " ++ msg)
  | .respond response =>
    if response = "" then fallbackVerdict supporting contradicting
    else
      match env.verdictParse (stripFence response) with
      | .jsonError => fallbackVerdict supporting contradicting
      | .raised msg => ("UNVERIFIED", 0, "Error during verification: " ++ msg)
      | .parsed r =>
          (r.verdict.getD "UNVERIFIED", r.confidence.getD 50,
           r.explanation.getD "Unable to determine verdict")

/-- Step 2 of `verify_claim` (lines 217-221): search every query in order and
concatenate the results (`all_sources.extend(sources)`); the pacing sleep has
no observable effect on the result. -/
def gatherSources (env : Env) (queries : List String) : List SearchedEvidence :=
  (queries.map (fun q => search_trusted_sources env q)).flatten

/-- Step 3 of `verify_claim` (lines 224-229): annotate every gathered source
with the similarity of the claim to its `relevant_text` (default `""`). -/
def scoreSources (env : Env) (claim : String)
    (srcs : List SearchedEvidence) : List Evidence :=
  srcs.map (fun s =>
    ⟨s.raw, s.credibility_score,
     calculate_semantic_similarity env claim (s.raw.relevant_text.getD "")⟩)

/-- Steps 1-3 of `verify_claim`: all sources for all generated queries, with
similarity scores attached, in arrival order. -/
def aggregate (env : Env) (claim : String) : List Evidence :=
  scoreSources env claim (gatherSources env (generate_search_queries env claim))

/-- The supporting partition (line 232): stance `supports` and similarity
strictly above `0.5`. -/
def supportingOf (xs : List Evidence) : List Evidence :=
  xs.filter (fun s =>
    decide (s.raw.stance = some "supports") && decide ((1 : Rat) / 2 < s.similarity_score))

/-- The contradicting partition (line 233): stance `contradicts` and
similarity strictly above `0.5`. -/
def contradictingOf (xs : List Evidence) : List Evidence :=
  xs.filter (fun s =>
    decide (s.raw.stance = some "contradicts") && decide ((1 : Rat) / 2 < s.similarity_score))

/-- The body of `verify_claim`'s `try` block (lines 210-249); `.error`
carries an exception escaping all inner guards (see `Env.unexpected`). -/
def verify_claim_try (env : Env) (claim claim_id : String) :
    Except String VerdictResult :=
  match env.unexpected with
  | some msg => .error msg
  | none =>
    let all_sources := aggregate env claim
    let supporting := supportingOf all_sources
    let contradicting := contradictingOf all_sources
    let v := determine_verdict env claim supporting contradicting
    .ok
      { claim_id := claim_id
        verdict := v.1
        confidence := v.2.1
        explanation := v.2.2
        supporting_sources := supporting.take 3
        contradicting_sources := contradicting.take 3 }

/-- `verify_claim` (lines 206-260): the guarded pipeline with its single
outermost safety net converting any escaped exception into an `UNVERIFIED`
result with confidence 0 and empty evidence lists. -/
def verify_claim (env : Env) (claim claim_id : String) : VerdictResult :=
  match verify_claim_try env claim claim_id with
  | .ok r => r
  | .error msg =>
    { claim_id := claim_id
      verdict := "UNVERIFIED"
      confidence := 0
      explanation := "Verification failed due to technical error: " ++ msg
      supporting_sources := []
      contradicting_sources := [] }

/-! ### Concrete environments and evidence used to instantiate the theorems -/

/-- An environment in which every external capability raises. -/
def envAllFail : Env :=
  { queryGen := fun _ => .raise "down"
    queryDecode := fun _ => none
    search := fun _ => .raise "down"
    searchDecode := fun _ => none
    scoreSim := fun _ _ => .error "down"
    verdictCall := fun _ _ _ => .raise "down"
    verdictParse := fun _ => .jsonError
    unexpected := none }

/-- An environment whose verdict synthesizer replies with unparseable text. -/
def envFallback : Env :=
  { envAllFail with
      verdictCall := fun _ _ _ => .respond "not json"
      verdictParse := fun _ => .jsonError }

/-- An environment in which an exception escapes all inner guards of
`verify_claim`. -/
def envBoom : Env :=
  { envAllFail with unexpected := some "boom" }

/-- An environment whose verdict synthesizer replies with valid JSON carrying
an out-of-vocabulary verdict and an out-of-range confidence. -/
def envBadVerdict : Env :=
  { envAllFail with
      verdictCall := fun _ _ _ => .respond "x"
      verdictParse := fun _ => .parsed ⟨some "BANANA", some 200, some "nonsense"⟩ }

/-- A parsed evidence dictionary with the given stance. -/
def sampleRaw (st : String) : RawEvidence :=
  ⟨some "PIB Fact Check", some "https://factcheck.pib.gov.in/a",
   some "text", some st, some (17 / 20)⟩

/-- A supporting evidence item with similarity above the threshold. -/
def sampleSupport : Evidence := ⟨sampleRaw "supports", 95, 9 / 10⟩

/-- A neutral evidence item with similarity above the threshold. -/
def sampleNeutral : Evidence := ⟨sampleRaw "neutral", 95, 9 / 10⟩

/-- A contradicting evidence item with similarity above the threshold. -/
def sampleContra : Evidence := ⟨sampleRaw "contradicts", 95, 9 / 10⟩

/-- A supporting evidence item whose similarity was produced by the lexical
fallback path (the scorer of `envAllFail` always raises). -/
def eFallback : Evidence :=
  ⟨sampleRaw "supports", 70,
   calculate_semantic_similarity envAllFail "the sky is blue" "the sky is grey"⟩

/-! ### Helper lemmas -/

/-- ASCII lowercasing never turns a whitespace character into a
non-whitespace one or vice versa. -/
theorem toLower_isWhitespace (c : Char) :
    (Char.toLower c).isWhitespace = c.isWhitespace := by
  have h0 : Char.ofNat c.toNat = c := Char.ofNat_toNat c
  show (if c.toNat ≥ 65 ∧ c.toNat ≤ 90 then Char.ofNat (c.toNat + 32)
        else c).isWhitespace = c.isWhitespace
  split
  · rename_i h
    obtain ⟨h1, h2⟩ := h
    set n := c.toNat with hn
    interval_cases n <;> (rw [← h0]; decide)
  · rfl

/-- A character-wise map that preserves whitespace preserves the number of
whitespace-delimited tokens. -/
theorem pyWordsAux_map_length (f : Char → Char)
    (hf : ∀ c, (f c).isWhitespace = c.isWhitespace) :
    ∀ (cs acc : List Char),
      (pyWordsAux (acc.map f) (cs.map f)).length = (pyWordsAux acc cs).length := by
  intro cs
  induction cs with
  | nil =>
    intro acc
    simp only [List.map_nil, pyWordsAux]
    by_cases h : acc = []
    · simp [h]
    · have h2 : acc.map f ≠ [] := by simpa using h
      simp [h, h2]
  | cons c cs ih =>
    intro acc
    simp only [List.map_cons, pyWordsAux, hf c]
    by_cases hw : c.isWhitespace
    · simp only [hw, if_true]
      by_cases h : acc = []
      · have h2 : acc.map f = [] := by simp [h]
        simp only [h, h2, if_true]
        simpa using ih []
      · have h2 : acc.map f ≠ [] := by simpa using h
        simp only [h, h2, if_false, List.length_cons]
        have h3 := ih []
        simp only [List.map_nil] at h3
        omega
    · simp only [hw, if_false]
      simpa using ih (c :: acc)

/-- Lowercasing a text does not change its token count. -/
theorem pyWords_pyLower_length (t : String) :
    (pyWords (pyLower t)).length = (pyWords t).length := by
  unfold pyWords pyLower
  have h := pyWordsAux_map_length Char.toLower toLower_isWhitespace t.data []
  simpa using h

/-- The number of distinct shared tokens is bounded by the denominator of the
lexical fallback score. -/
theorem sharedCount_le (t1 t2 : String) :
    sharedCount t1 t2 ≤ max (max (pyWords t1).length (pyWords t2).length) 1 := by
  have h1 : sharedCount t1 t2 ≤ (pyWords (pyLower t1)).length := by
    unfold sharedCount
    exact (List.length_filter_le _ _).trans (List.dedup_sublist _).length_le
  rw [pyWords_pyLower_length] at h1
  exact h1.trans (le_max_of_le_left (le_max_left _ _))

/-- The lexical fallback score is nonnegative. -/
theorem fallbackSimilarity_nonneg (t1 t2 : String) :
    0 ≤ fallbackSimilarity t1 t2 := by
  unfold fallbackSimilarity
  have h1 : (0 : Rat) ≤ (sharedCount t1 t2 : Rat) := by positivity
  have h2 : (0 : Rat) ≤
      ((max (max (pyWords t1).length (pyWords t2).length) 1 : Nat) : Rat) := by positivity
  have := div_nonneg h1 h2
  nlinarith

/-- The lexical fallback score never exceeds one half. -/
theorem fallbackSimilarity_le_half (t1 t2 : String) :
    fallbackSimilarity t1 t2 ≤ 1 / 2 := by
  unfold fallbackSimilarity
  have hD : (0 : Rat) <
      ((max (max (pyWords t1).length (pyWords t2).length) 1 : Nat) : Rat) := by
    have h1 : 0 < max (max (pyWords t1).length (pyWords t2).length) 1 :=
      Nat.lt_of_lt_of_le Nat.zero_lt_one (le_max_right _ _)
    exact_mod_cast h1
  have hle : (sharedCount t1 t2 : Rat) ≤
      ((max (max (pyWords t1).length (pyWords t2).length) 1 : Nat) : Rat) :=
    Nat.cast_le.mpr (sharedCount_le t1 t2)
  have hdiv : (sharedCount t1 t2 : Rat)
      / ((max (max (pyWords t1).length (pyWords t2).length) 1 : Nat) : Rat) ≤ 1 :=
    (div_le_one hD).mpr hle
  calc (sharedCount t1 t2 : Rat)
        / ((max (max (pyWords t1).length (pyWords t2).length) 1 : Nat) : Rat) * (1 / 2)
      ≤ 1 * (1 / 2) := mul_le_mul_of_nonneg_right hdiv (by norm_num)
    _ = 1 / 2 := one_mul _

/-- The verdict and confidence produced by the deterministic fallback rule are
always in the documented vocabulary and range. -/
theorem fallbackVerdict_range (s c : List Evidence) :
    (fallbackVerdict s c).1 ∈
      (["TRUE", "FALSE", "MISLEADING", "UNVERIFIED"] : List String) ∧
    0 ≤ (fallbackVerdict s c).2.1 ∧ (fallbackVerdict s c).2.1 ≤ 100 := by
  unfold fallbackVerdict
  split
  · exact ⟨by simp, by norm_num, by norm_num⟩
  · split
    · exact ⟨by simp, by norm_num, by norm_num⟩
    · exact ⟨by simp, by norm_num, by norm_num⟩

/-! ### The claims -/

/-- C3: an aggregated item is in the supporting partition iff its stance is
`supports` and its similarity is strictly above `0.5`; in the contradicting
partition iff its stance is `contradicts` and its similarity is strictly
above `0.5`; a neutral item, or one with similarity at most `0.5`, is in
neither partition. -/
theorem partition_membership_spec (xs : List Evidence) (e : Evidence) :
    (e ∈ supportingOf xs ↔
      e ∈ xs ∧ e.raw.stance = some "supports" ∧ (1 : Rat) / 2 < e.similarity_score) ∧
    (e ∈ contradictingOf xs ↔
      e ∈ xs ∧ e.raw.stance = some "contradicts" ∧ (1 : Rat) / 2 < e.similarity_score) ∧
    (e.raw.stance = some "neutral" ∨ e.similarity_score ≤ 1 / 2 →
      e ∉ supportingOf xs ∧ e ∉ contradictingOf xs) := by
  refine ⟨?_, ?_, ?_⟩
  · simp [supportingOf, List.mem_filter, and_assoc]
  · simp [contradictingOf, List.mem_filter, and_assoc]
  · rintro (h | h)
    · constructor
      · intro hmem
        simp only [supportingOf, List.mem_filter, Bool.and_eq_true,
          decide_eq_true_eq] at hmem
        simp [h] at hmem
      · intro hmem
        simp only [contradictingOf, List.mem_filter, Bool.and_eq_true,
          decide_eq_true_eq] at hmem
        simp [h] at hmem
    · have hnot : ¬ ((1 : Rat) / 2 < e.similarity_score) := not_lt.mpr h
      constructor
      · intro hmem
        simp only [supportingOf, List.mem_filter, Bool.and_eq_true,
          decide_eq_true_eq] at hmem
        exact hnot hmem.2.2
      · intro hmem
        simp only [contradictingOf, List.mem_filter, Bool.and_eq_true,
          decide_eq_true_eq] at hmem
        exact hnot hmem.2.2

/-- Witness for C3 at concrete evidence items. -/
theorem partition_membership_spec_witness :
    sampleSupport ∈ supportingOf [sampleSupport] ∧
    sampleNeutral ∉ supportingOf [sampleNeutral] ∧
    sampleNeutral ∉ contradictingOf [sampleNeutral] := by
  have h1 := (partition_membership_spec [sampleSupport] sampleSupport).1.mpr
    ⟨by simp, rfl, by norm_num [sampleSupport]⟩
  have h2 := (partition_membership_spec [sampleNeutral] sampleNeutral).2.2 (Or.inl rfl)
  exact ⟨h1, h2.1, h2.2⟩

/-- C2: when the verdict synthesizer's reply is empty or unparseable, the
verdict is determined by the deterministic count rule over the two evidence
partitions. -/
theorem determine_verdict_count_rule (env : Env) (claim : String)
    (s c : List Evidence) (r : String)
    (hr : env.verdictCall claim s c = .respond r)
    (hp : r = "" ∨ env.verdictParse (stripFence r) = .jsonError) :
    determine_verdict env claim s c =
      if c.length > s.length then
        ("FALSE", 60, "Multiple sources contradict this claim.")
      else if s.length > c.length then
        ("TRUE", 60, "Multiple sources support this claim.")
      else ("UNVERIFIED", 30, "Insufficient evidence to verify this claim.") := by
  unfold determine_verdict
  rw [hr]
  rcases hp with hp | hp
  · subst hp
    simp [fallbackVerdict]
  · by_cases hre : r = ""
    · subst hre
      simp [fallbackVerdict]
    · simp [hre, hp, fallbackVerdict]

/-- Witness for C2: two contradicting items, no supporting items, unparseable
reply. -/
theorem determine_verdict_count_rule_witness :
    determine_verdict envFallback "c" [] [sampleContra, sampleContra] =
      ("FALSE", 60, "Multiple sources contradict this claim.") := by
  rw [determine_verdict_count_rule envFallback "c" [] [sampleContra, sampleContra]
    "not json" rfl (Or.inr rfl)]
  norm_num

/-- C8: a raising reasoning call, or any exception after a successful JSON
parse during verdict synthesis, yields `UNVERIFIED` with confidence 0 and an
explanation embedding the error text. -/
theorem determine_verdict_error_path (env : Env) (claim : String)
    (s c : List Evidence) :
    (∀ m, env.verdictCall claim s c = .raise m →
      determine_verdict env claim s c =
        ("UNVERIFIED", 0, "Error during verification: " ++ m)) ∧
    (∀ r m, env.verdictCall claim s c = .respond r → r ≠ "" →
      env.verdictParse (stripFence r) = .raised m →
      determine_verdict env claim s c =
        ("UNVERIFIED", 0, "Error during verification: " ++ m)) := by
  constructor
  · intro m hm
    unfold determine_verdict
    rw [hm]
  · intro r m hr hne hp
    unfold determine_verdict
    rw [hr]
    simp [hne, hp]

/-- Witness for C8 at a concrete raising environment. -/
theorem determine_verdict_error_path_witness :
    determine_verdict envAllFail "c" [] [] =
      ("UNVERIFIED", 0, "Error during verification: " ++ "down") :=
  (determine_verdict_error_path envAllFail "c" [] []).1 "down" rfl

/-- C5: for a non-empty claim, `generate_search_queries` returns at most 3
queries, and returns exactly `[claim]` whenever the reasoning capability
raises, returns nothing, or returns text that does not decode. -/
theorem generate_search_queries_spec (env : Env) (claim : String)
    (hne : claim ≠ "") :
    (generate_search_queries env claim).length ≤ 3 ∧
    (∀ m, env.queryGen claim = .raise m →
      generate_search_queries env claim = [claim]) ∧
    (env.queryGen claim = .respond "" →
      generate_search_queries env claim = [claim]) ∧
    (∀ r, env.queryGen claim = .respond r →
      env.queryDecode (stripFence r) = none →
      generate_search_queries env claim = [claim]) := by
  refine ⟨?_, ?_, ?_, ?_⟩
  · cases h : env.queryGen claim with
    | raise m => simp [generate_search_queries, h]
    | respond r =>
      by_cases hr : r = ""
      · simp [generate_search_queries, h, hr]
      · cases hd : env.queryDecode (stripFence r) with
        | none => simp [generate_search_queries, h, hr, hd]
        | some qs =>
          simp only [generate_search_queries, h, hr, if_false, hd]
          simp [List.length_take]
  · intro m hm
    simp [generate_search_queries, hm]
  · intro hm
    simp [generate_search_queries, hm]
  · intro r hr hd
    by_cases hre : r = ""
    · simp [generate_search_queries, hr, hre]
    · simp [generate_search_queries, hr, hre, hd]

/-- Witness for C5: the specification's example claim against a failing
reasoning capability. -/
theorem generate_search_queries_spec_witness :
    generate_search_queries envAllFail "Vaccine X causes disease Y" =
      ["Vaccine X causes disease Y"] ∧
    (generate_search_queries envAllFail "Vaccine X causes disease Y").length ≤ 3 := by
  have h := generate_search_queries_spec envAllFail "Vaccine X causes disease Y"
    (by decide)
  exact ⟨h.2.1 "down" rfl, h.1⟩

/-- C6: `verify_claim` always returns a `VerdictResult` (it is a total
function into a record with exactly the keys `claim_id`, `verdict`,
`confidence`, `explanation`, `supporting_sources`, `contradicting_sources`),
carrying the caller's claim identifier; and on the outermost exception path
the result is `UNVERIFIED` with confidence 0, an explanation describing the
failure, and empty evidence lists. -/
theorem verify_claim_shape (env : Env) (claim cid : String) :
    (verify_claim env claim cid).claim_id = cid ∧
    (∀ m, env.unexpected = some m →
      verify_claim env claim cid =
        { claim_id := cid, verdict := "UNVERIFIED", confidence := 0,
          explanation := "Verification failed due to technical error: " ++ m,
          supporting_sources := [], contradicting_sources := [] }) := by
  constructor
  · cases h : env.unexpected with
    | some m => simp [verify_claim, verify_claim_try, h]
    | none => simp [verify_claim, verify_claim_try, h]
  · intro m hm
    simp [verify_claim, verify_claim_try, hm]

/-- Witness for C6 at an environment whose pipeline body raises. -/
theorem verify_claim_shape_witness :
    verify_claim envBoom "c" "id" =
      { claim_id := "id", verdict := "UNVERIFIED", confidence := 0,
        explanation := "Verification failed due to technical error: " ++ "boom",
        supporting_sources := [], contradicting_sources := [] } :=
  (verify_claim_shape envBoom "c" "id").2 "boom" rfl

/-- C9: the retained evidence lists of `verify_claim`'s result each hold at
most 3 items and are sublists of the aggregated sources, hence kept in
arrival order. -/
theorem retained_sources_bound (env : Env) (claim cid : String) :
    (verify_claim env claim cid).supporting_sources.length ≤ 3 ∧
    (verify_claim env claim cid).contradicting_sources.length ≤ 3 ∧
    List.Sublist (verify_claim env claim cid).supporting_sources
      (aggregate env claim) ∧
    List.Sublist (verify_claim env claim cid).contradicting_sources
      (aggregate env claim) := by
  cases h : env.unexpected with
  | some m =>
    have hs : (verify_claim env claim cid).supporting_sources = [] := by
      simp [verify_claim, verify_claim_try, h]
    have hc : (verify_claim env claim cid).contradicting_sources = [] := by
      simp [verify_claim, verify_claim_try, h]
    rw [hs, hc]
    exact ⟨by norm_num, by norm_num, List.nil_sublist _, List.nil_sublist _⟩
  | none =>
    have hs : (verify_claim env claim cid).supporting_sources
        = (supportingOf (aggregate env claim)).take 3 := by
      simp [verify_claim, verify_claim_try, h]
    have hc : (verify_claim env claim cid).contradicting_sources
        = (contradictingOf (aggregate env claim)).take 3 := by
      simp [verify_claim, verify_claim_try, h]
    rw [hs, hc]
    refine ⟨?_, ?_, ?_, ?_⟩
    · rw [List.length_take]
      exact min_le_left _ _
    · rw [List.length_take]
      exact min_le_left _ _
    · exact (List.take_sublist _ _).trans (List.filter_sublist _)
    · exact (List.take_sublist _ _).trans (List.filter_sublist _)

/-- C7: when the Evidence Source capability raises on every query, every
per-query search is absorbed as an empty result, the aggregation and both
partitions are empty, and the deterministic fallback on empty partitions is
`UNVERIFIED` with confidence 30. -/
theorem evidence_source_failure (env : Env) (claim : String)
    (hs : ∀ q, ∃ m, env.search q = .raise m) :
    (∀ q, search_trusted_sources env q = []) ∧
    aggregate env claim = [] ∧
    supportingOf (aggregate env claim) = [] ∧
    contradictingOf (aggregate env claim) = [] ∧
    fallbackVerdict [] [] =
      ("UNVERIFIED", 30, "Insufficient evidence to verify this claim.") := by
  have hq : ∀ q, search_trusted_sources env q = [] := by
    intro q
    obtain ⟨m, hm⟩ := hs q
    simp [search_trusted_sources, hm]
  have hagg : aggregate env claim = [] := by
    simp [aggregate, gatherSources, scoreSources, hq]
  exact ⟨hq, hagg, by rw [hagg]; rfl, by rw [hagg]; rfl,
    by norm_num [fallbackVerdict]⟩

/-- Witness for C7 at an environment whose Evidence Source always raises. -/
theorem evidence_source_failure_witness :
    search_trusted_sources envAllFail "q" = [] ∧
    supportingOf (aggregate envAllFail "c") = [] ∧
    contradictingOf (aggregate envAllFail "c") = [] ∧
    fallbackVerdict [] [] =
      ("UNVERIFIED", 30, "Insufficient evidence to verify this claim.") := by
  have h := evidence_source_failure envAllFail "c" (fun _ => ⟨"down", rfl⟩)
  exact ⟨h.1 "q", h.2.2.1, h.2.2.2.1, h.2.2.2.2⟩

/-- C4: when the Similarity Scorer raises, the similarity of two texts is the
number of distinct shared lowercased tokens over the larger token count
(floored at 1), scaled by one half; on the specification's example pair the
fallback score is `0.375 = 3/8`. -/
theorem similarity_fallback_formula :
    (∀ (env : Env) (t1 t2 m : String), env.scoreSim t1 t2 = .error m →
      calculate_semantic_similarity env t1 t2 =
        (sharedCount t1 t2 : Rat)
          / ((max (max (pyWords t1).length (pyWords t2).length) 1 : Nat) : Rat)
          * (1 / 2)) ∧
    fallbackSimilarity "the sky is blue" "the sky is grey" = 3 / 8 := by
  constructor
  · intro env t1 t2 m hm
    unfold calculate_semantic_similarity
    rw [hm]
    rfl
  · have h1 : sharedCount "the sky is blue" "the sky is grey" = 3 := by decide
    have h2 : (pyWords "the sky is blue").length = 4 := by decide
    have h3 : (pyWords "the sky is grey").length = 4 := by decide
    rw [fallbackSimilarity, h1, h2, h3]
    norm_num

/-- Witness for C4 at a concrete raising scorer and the example texts. -/
theorem similarity_fallback_formula_witness :
    calculate_semantic_similarity envAllFail "the sky is blue" "the sky is grey"
      = 3 / 8 := by
  rw [similarity_fallback_formula.1 envAllFail "the sky is blue" "the sky is grey"
    "down" rfl]
  have h2 := similarity_fallback_formula.2
  unfold fallbackSimilarity at h2
  exact h2

/-- C10: the lexical fallback score always lies in `[0, 1/2]`, so an evidence
item whose similarity was computed by the fallback path can never enter
either partition (both require a score strictly above `0.5`). -/
theorem fallback_similarity_bounds (t1 t2 : String) :
    0 ≤ fallbackSimilarity t1 t2 ∧ fallbackSimilarity t1 t2 ≤ 1 / 2 ∧
    (∀ (env : Env) (m : String), env.scoreSim t1 t2 = .error m →
      ∀ (xs : List Evidence) (e : Evidence),
        e.similarity_score = calculate_semantic_similarity env t1 t2 →
        e ∉ supportingOf xs ∧ e ∉ contradictingOf xs) := by
  refine ⟨fallbackSimilarity_nonneg t1 t2, fallbackSimilarity_le_half t1 t2, ?_⟩
  intro env m hm xs e he
  have hcalc : calculate_semantic_similarity env t1 t2 = fallbackSimilarity t1 t2 := by
    unfold calculate_semantic_similarity
    rw [hm]
  have hle : e.similarity_score ≤ 1 / 2 := by
    rw [he, hcalc]
    exact fallbackSimilarity_le_half t1 t2
  have hnot : ¬ ((1 : Rat) / 2 < e.similarity_score) := not_lt.mpr hle
  constructor
  · intro hmem
    simp only [supportingOf, List.mem_filter, Bool.and_eq_true,
      decide_eq_true_eq] at hmem
    exact hnot hmem.2.2
  · intro hmem
    simp only [contradictingOf, List.mem_filter, Bool.and_eq_true,
      decide_eq_true_eq] at hmem
    exact hnot hmem.2.2

/-- Witness for C10: a fallback-scored item inside the aggregation pool is in
neither partition. -/
theorem fallback_similarity_bounds_witness :
    0 ≤ fallbackSimilarity "the sky is blue" "the sky is grey" ∧
    fallbackSimilarity "the sky is blue" "the sky is grey" ≤ 1 / 2 ∧
    eFallback ∉ supportingOf [eFallback] ∧
    eFallback ∉ contradictingOf [eFallback] := by
  have h := fallback_similarity_bounds "the sky is blue" "the sky is grey"
  have h3 := h.2.2 envAllFail "down" rfl [eFallback] eFallback rfl
  exact ⟨h.1, h.2.1, h3.1, h3.2⟩

/-- The verdict triple of `_determine_verdict` stays in the documented
vocabulary and range provided any successfully parsed reply is itself
well-formed. -/
theorem determine_verdict_range (env : Env) (claim : String) (s c : List Evidence)
    (hwf : ∀ (r : String) (v : VerdictJson),
      env.verdictCall claim s c = .respond r →
      env.verdictParse (stripFence r) = .parsed v →
      v.verdict.getD "UNVERIFIED" ∈
        (["TRUE", "FALSE", "MISLEADING", "UNVERIFIED"] : List String) ∧
      0 ≤ v.confidence.getD 50 ∧ v.confidence.getD 50 ≤ 100) :
    (determine_verdict env claim s c).1 ∈
      (["TRUE", "FALSE", "MISLEADING", "UNVERIFIED"] : List String) ∧
    0 ≤ (determine_verdict env claim s c).2.1 ∧
    (determine_verdict env claim s c).2.1 ≤ 100 := by
  cases h : env.verdictCall claim s c with
  | raise m =>
    have heq : determine_verdict env claim s c =
        ("UNVERIFIED", 0, "Error during verification: " ++ m) := by
      simp [determine_verdict, h]
    rw [heq]
    exact ⟨by simp, by norm_num, by norm_num⟩
  | respond r =>
    by_cases hr : r = ""
    · subst hr
      have heq : determine_verdict env claim s c = fallbackVerdict s c := by
        simp [determine_verdict, h]
      rw [heq]
      exact fallbackVerdict_range s c
    · cases hp : env.verdictParse (stripFence r) with
      | jsonError =>
        have heq : determine_verdict env claim s c = fallbackVerdict s c := by
          simp [determine_verdict, h, hr, hp]
        rw [heq]
        exact fallbackVerdict_range s c
      | raised m =>
        have heq : determine_verdict env claim s c =
            ("UNVERIFIED", 0, "Error during verification: " ++ m) := by
          simp [determine_verdict, h, hr, hp]
        rw [heq]
        exact ⟨by simp, by norm_num, by norm_num⟩
      | parsed v =>
        have heq : determine_verdict env claim s c =
            (v.verdict.getD "UNVERIFIED", v.confidence.getD 50,
             v.explanation.getD "Unable to determine verdict") := by
          simp [determine_verdict, h, hr, hp]
        rw [heq]
        exact hwf r v h hp

/-- C1 counterexample: with a reasoning capability whose reply parses to the
JSON object `{"verdict": "BANANA", "confidence": 200, ...}`, the primary path
of `verify_claim` returns that verdict and confidence unvalidated, so the
verdict is outside the documented vocabulary and the confidence is outside
`[0,100]`. -/
theorem verify_claim_verdict_unvalidated :
    (verify_claim envBadVerdict "c" "id").verdict = "BANANA" ∧
    (verify_claim envBadVerdict "c" "id").verdict ∉
      (["TRUE", "FALSE", "MISLEADING", "UNVERIFIED"] : List String) ∧
    (verify_claim envBadVerdict "c" "id").confidence = 200 := by
  have h1 : verify_claim envBadVerdict "c" "id" =
      { claim_id := "id", verdict := "BANANA", confidence := 200,
        explanation := "nonsense", supporting_sources := [],
        contradicting_sources := [] } := by
    rfl
  rw [h1]
  exact ⟨rfl, by decide, rfl⟩

/-- C1 amended: on every fallback and error path `verify_claim`'s verdict is
in `{TRUE, FALSE, MISLEADING, UNVERIFIED}` and its confidence in `[0,100]`;
on the primary path the parsed verdict and confidence are passed through
without validation or clamping, so the bounds hold exactly when every
successfully parsed reply carries a verdict in the vocabulary (after the
`UNVERIFIED` default) and a confidence in range (after the default 50). -/
theorem verify_claim_verdict_range (env : Env)
    (hwf : ∀ (claim : String) (s c : List Evidence) (r : String) (v : VerdictJson),
      env.verdictCall claim s c = .respond r →
      env.verdictParse (stripFence r) = .parsed v →
      v.verdict.getD "UNVERIFIED" ∈
        (["TRUE", "FALSE", "MISLEADING", "UNVERIFIED"] : List String) ∧
      0 ≤ v.confidence.getD 50 ∧ v.confidence.getD 50 ≤ 100)
    (claim cid : String) :
    (verify_claim env claim cid).verdict ∈
      (["TRUE", "FALSE", "MISLEADING", "UNVERIFIED"] : List String) ∧
    0 ≤ (verify_claim env claim cid).confidence ∧
    (verify_claim env claim cid).confidence ≤ 100 := by
  cases h : env.unexpected with
  | some m =>
    have heq : verify_claim env claim cid =
        { claim_id := cid, verdict := "UNVERIFIED", confidence := 0,
          explanation := "Verification failed due to technical error: " ++ m,
          supporting_sources := [], contradicting_sources := [] } := by
      simp [verify_claim, verify_claim_try, h]
    rw [heq]
    exact ⟨by simp, by norm_num, by norm_num⟩
  | none =>
    have hv : (verify_claim env claim cid).verdict =
        (determine_verdict env claim (supportingOf (aggregate env claim))
          (contradictingOf (aggregate env claim))).1 := by
      simp [verify_claim, verify_claim_try, h]
    have hc : (verify_claim env claim cid).confidence =
        (determine_verdict env claim (supportingOf (aggregate env claim))
          (contradictingOf (aggregate env claim))).2.1 := by
      simp [verify_claim, verify_claim_try, h]
    rw [hv, hc]
    exact determine_verdict_range env claim _ _ (fun r v => hwf claim _ _ r v)

/-- Witness for the amended C1: an environment whose reasoning capability
always raises satisfies the well-formedness hypothesis vacuously. -/
theorem verify_claim_verdict_range_witness :
    (verify_claim envAllFail "c" "id").verdict ∈
      (["TRUE", "FALSE", "MISLEADING", "UNVERIFIED"] : List String) ∧
    0 ≤ (verify_claim envAllFail "c" "id").confidence ∧
    (verify_claim envAllFail "c" "id").confidence ≤ 100 := by
  refine verify_claim_verdict_range envAllFail ?_ "c" "id"
  intro claim s c r v hcall hparse
  exact absurd hcall (by simp [envAllFail])

end SatyaVerify
